import Mathlib

/-! rago: registries, prompt builder, prompt augmentation and the pgvector store

A shallow embedding of `pkg/db/db.go`, `pkg/backend/backend.go`,
`pkg/backend/prompt.go`, `pkg/backend/openai/openai.go` and
`pkg/db/pgvector/pgvector.go`.

Conventions of the embedding:

* a Go call ends by returning, by a fatal log (`log.For(..).Fatal`, which
  terminates the process) or by a run-time panic: `Outcome`;
* a Go `error` is `Option String` (`none` is `nil`), and a Go result
  `(T, error)` is a pair;
* package-level maps and the database table are passed explicitly as state;
* `float32` / `float64` values are never computed with, only carried, so
  they are elements of a type parameter `F`.
-/

namespace Rago

/-! ## How a call ends -/

/-- The three ways a Go call can end: it returns, it logs a fatal message
(`log.For(..).Fatal`, after which the process exits), or it panics. -/
inductive Outcome (α : Type) where
  | ret (a : α)
  | fatal (msg : String)
  | panic (msg : String)

/-- A Go `error` value; `none` is `nil`. -/
abbrev GoError := Option String

/-! ## Dynamically typed values -/

/-- A dynamically typed value held in `map[string]interface{}`. -/
inductive Value where
  | str (s : String)
  | null
  | bool (b : Bool)
  | int (n : Int)
  deriving DecidableEq, Repr

/-- The Go type `map[string]interface{}` as an association list, first match wins. -/
abbrev Metadata := List (String × Value)

/-- Indexing `m[key]`: a missing key yields the nil interface value. -/
def Metadata.index (m : Metadata) (key : String) : Value :=
  match m.lookup key with
  | some v => v
  | none => Value.null

/-- The verb `%s` of `fmt` applied to one operand. A string is written as is;
any other operand is written as a bad-verb notice. -/
def fmtS : Value → String
  | Value.str s => s
  | Value.null => "%!s(<nil>)"
  | Value.bool b => "%!s(bool=" ++ (if b then "true" else "false") ++ ")"
  | Value.int n => "%!s(int=" ++ toString n ++ ")"

/-! ## The concrete adapters' structs (`openai.go`, `pgvector.go`) -/

/-- The part of `http.Client` the constructor sets: the timeout, in seconds. -/
structure HTTPClient where
  Timeout : Nat
  deriving DecidableEq, Repr

/-- The struct `openai.OpenAI`; `HTTPClient` is a pointer, `none` is `nil`. -/
structure OpenAI where
  apiKey : String := ""
  baseURL : String := ""
  model : String := ""
  HTTPClient : Option HTTPClient := none
  deriving DecidableEq, Repr

/-- A handle on a `pgxpool.Pool`. -/
structure Pool where
  handle : Nat
  deriving DecidableEq, Repr

/-- The struct `pgvector.PGVector`; `conn` is a pointer, `none` is `nil`. -/
structure PGVector where
  dsn : String := ""
  conn : Option Pool := none
  deriving DecidableEq, Repr

/-- A value of type `backend.Option` / `db.Option` (both are `interface{}`),
told apart by its dynamic type as the constructors' type switches do. -/
inductive Opt where
  | openaiFn (f : OpenAI → OpenAI)
  | pgvectorFn (f : PGVector → PGVector)
  | other (v : Value)

/-- The Go type `Factory`: `func(...Option) (T, error)`, where `T` is an
interface type whose nil value is `none`. -/
abbrev Factory (T : Type) := List Opt → Outcome (Option T × GoError)

/-- A package-level `map[string]Factory`. -/
abbrev Factories (T : Type) := String → Option (Factory T)

/-- The map literal `map[string]Factory{}`. -/
def Factories.empty (T : Type) : Factories T := fun _ => none

/-- The assignment `m[key] = f`. -/
def Factories.set {T : Type} (m : Factories T) (key : String) (f : Factory T) : Factories T :=
  fun k => if k = key then some f else m k

/-! ## `pkg/backend/backend.go` and `pkg/backend/prompt.go` -/

namespace backend

/-- The struct `backend.Message`. -/
structure Message where
  Role : String
  Content : String
  deriving DecidableEq, Repr

/-- The struct `backend.Parameters`. -/
structure Parameters (F : Type) where
  MaxTokens : Int
  Temperature : F
  TopP : F
  FrequencyPenalty : F
  PresencePenalty : F
  deriving DecidableEq, Repr

/-- The struct `backend.Prompt`. -/
structure Prompt (F : Type) where
  Messages : List Message
  Parameters : Parameters F
  deriving DecidableEq, Repr

/-- The zero value of `Parameters`. -/
def Parameters.zero (F : Type) [Zero F] : Parameters F :=
  { MaxTokens := 0, Temperature := 0, TopP := 0, FrequencyPenalty := 0, PresencePenalty := 0 }

/-- The function `backend.NewPrompt`: `&Prompt{}`. -/
def NewPrompt (F : Type) [Zero F] : Prompt F :=
  { Messages := [], Parameters := Parameters.zero F }

/-- The method `(*Prompt).AddMessage`. -/
def Prompt.AddMessage {F : Type} (p : Prompt F) (role content : String) : Prompt F :=
  { p with Messages := p.Messages ++ [{ Role := role, Content := content }] }

/-- The method `(*Prompt).SetParameters`. -/
def Prompt.SetParameters {F : Type} (p : Prompt F) (params : backend.Parameters F) :
    Prompt F :=
  { p with Parameters := params }

/-- The function `backend.NewBackend`, over the package map `backends`. -/
def NewBackend {T : Type} (backends : Factories T) (bc : String) (opts : List Opt) :
    Outcome (Option T × GoError) :=
  match backends bc with
  | none => Outcome.fatal "Backend not found."
  | some b => b opts

/-- The function `backend.Register`: the package map afterwards, and how the call ends. -/
def Register {T : Type} (backends : Factories T) (bc : String) (b : Option (Factory T)) :
    Factories T × Outcome Unit :=
  match b with
  | none => (backends, Outcome.fatal "Invalid backend.")
  | some f =>
    match backends bc with
    | some _ => (backends, Outcome.fatal ("Backend " ++ bc ++ " already registered."))
    | none => (backends.set bc f, Outcome.ret ())

end backend

/-! ## `pkg/db/db.go` -/

namespace db

/-- The struct `db.Document`. -/
structure Document where
  ID : String
  Metadata : Metadata
  deriving DecidableEq, Repr

/-- The function `db.NewDB`, over the package map `dbs`. -/
def NewDB {T : Type} (dbs : Factories T) (db : String) (opts : List Opt) :
    Outcome (Option T × GoError) :=
  match dbs db with
  | none => Outcome.fatal "Database not found."
  | some s => s opts

/-- The function `db.Register`: the package map afterwards, and how the call ends. -/
def Register {T : Type} (dbs : Factories T) (db : String) (d : Option (Factory T)) :
    Factories T × Outcome Unit :=
  match d with
  | none => (dbs, Outcome.fatal "Invalid database.")
  | some f =>
    match dbs db with
    | some _ => (dbs, Outcome.fatal ("Database " ++ db ++ " already registered."))
    | none => (dbs.set db f, Outcome.ret ())

/-- One pass of the loop body of `CombineQueryWithContext`:
`context += fmt.Sprintf("%s\n", doc.Metadata["content"])`. -/
def contextStep (context : String) (doc : Document) : String :=
  context ++ (fmtS (doc.Metadata.index "content") ++ "\n")

/-- The function `db.CombineQueryWithContext`. -/
def CombineQueryWithContext (query : String) (retrievedDocs : List Document) : String :=
  let context := retrievedDocs.foldl contextStep ""
  "Context: " ++ context ++ "\n\nQuery: " ++ query

/-- The text `c1 ++ "\n" ++ ... ++ cn ++ "\n"` of the contents `c1 .. cn`, in order. -/
def joinLines : List String → String
  | [] => ""
  | c :: cs => c ++ "\n" ++ joinLines cs

/-- A document whose only metadata is its content. -/
def contentDoc (id content : String) : Document :=
  { ID := id, Metadata := [("content", Value.str content)] }

end db

/-! ## `pkg/backend/openai/openai.go` -/

namespace openai

/-- The field `Message` of one element of `OpenAIResponse.Choices`. -/
structure ChoiceMessage where
  Role : String
  Content : String
  deriving DecidableEq, Repr

/-- One element of `OpenAIResponse.Choices`. -/
structure Choice where
  Index : Int
  Message : ChoiceMessage
  FinishReason : String
  deriving DecidableEq, Repr

/-- The field `Usage` of `OpenAIResponse`. -/
structure Usage where
  PromptTokens : Int
  CompletionTokens : Int
  TotalTokens : Int
  deriving DecidableEq, Repr

/-- The struct `openai.OpenAIResponse`. -/
structure OpenAIResponse where
  ID : String
  Object : String
  Created : Int
  Model : String
  Choices : List Choice
  Usage : Usage
  deriving DecidableEq, Repr

/-- One element of `OpenAIEmbeddingResponse.Data`. -/
structure EmbeddingData (F : Type) where
  Object : String
  Embedding : List F
  Index : Int
  deriving DecidableEq, Repr

/-- The field `Usage` of `OpenAIEmbeddingResponse`. -/
structure EmbeddingUsage where
  PromptTokens : Int
  TotalTokens : Int
  deriving DecidableEq, Repr

/-- The struct `openai.OpenAIEmbeddingResponse`. -/
structure OpenAIEmbeddingResponse (F : Type) where
  Object : String
  Data : List (EmbeddingData F)
  Model : String
  Usage : EmbeddingUsage
  deriving DecidableEq, Repr

/-- The map `reqBody` built by `Generate`. -/
structure ChatRequestBody (F : Type) where
  model : String
  messages : List backend.Message
  max_tokens : Int
  temperature : F
  top_p : F
  frequency_penalty : F
  presence_penalty : F

/-- The map `reqBody` built by `Embed`. -/
structure EmbedRequestBody where
  model : String
  input : String

/-- The request handed to `HTTPClient.Do`: method, URL, the two headers set, the body. -/
structure HTTPRequest (B : Type) where
  Method : String
  URL : String
  ContentType : String
  Authorization : String
  Body : B

/-- What the program observes of an `http.Response` whose body decodes into `R`:
the status code, the result of `io.ReadAll(resp.Body)` and the result of
`json.NewDecoder(resp.Body).Decode(&result)`. -/
structure HTTPResponse (R : Type) where
  StatusCode : Nat
  readAll : String × GoError
  decode : Except String R

/-- The calls out of the package made by `Generate` and `Embed`, as functions
of what they are given: `json.Marshal`, `http.NewRequestWithContext` and
`HTTPClient.Do`. -/
structure HTTPEnv (B R : Type) where
  marshal : B → GoError
  newRequest : String → String → GoError
  Do : HTTPRequest B → Except String (HTTPResponse R)

/-- The constant `http.StatusOK`. -/
def StatusOK : Nat := 200

/-- The environment answers with a response that is successfully decoded into
`r`: marshalling, request creation and the round trip succeed, the status is
`200` and the decoder yields `r`. -/
def HTTPEnv.Serves {B R : Type} (env : HTTPEnv B R) (r : R) : Prop :=
  (∀ b, env.marshal b = none) ∧ (∀ m u, env.newRequest m u = none) ∧
    ∃ resp, (∀ req, env.Do req = Except.ok resp) ∧ resp.StatusCode = StatusOK ∧
      resp.decode = Except.ok r

/-- An environment that answers every request with status `200` and a body
that decodes into `r`. -/
def served {B R : Type} (r : R) : HTTPEnv B R :=
  { marshal := fun _ => none
    newRequest := fun _ _ => none
    Do := fun _ => Except.ok { StatusCode := 200, readAll := ("", none), decode := Except.ok r } }

/-- The run-time panic raised by indexing an empty slice at 0. -/
def indexPanic : String := "runtime error: index out of range [0] with length 0"

/-- The run-time panic raised by calling `Do` on a nil `*http.Client`. -/
def nilPanic : String := "runtime error: invalid memory address or nil pointer dereference"

/-- The method `(*OpenAI).Generate`; the call `o.HTTPClient.Do(req)` on a nil
client is a nil dereference. -/
def Generate {F : Type} (env : HTTPEnv (ChatRequestBody F) OpenAIResponse) (o : OpenAI)
    (prompt : backend.Prompt F) : Outcome (String × GoError) :=
  let url := o.baseURL ++ "/v1/chat/completions"
  let reqBody : ChatRequestBody F :=
    { model := o.model
      messages := prompt.Messages
      max_tokens := prompt.Parameters.MaxTokens
      temperature := prompt.Parameters.Temperature
      top_p := prompt.Parameters.TopP
      frequency_penalty := prompt.Parameters.FrequencyPenalty
      presence_penalty := prompt.Parameters.PresencePenalty }
  match env.marshal reqBody with
  | some err => Outcome.ret ("", some ("Failed to marshal request body: " ++ err ++ "."))
  | none =>
  match env.newRequest "POST" url with
  | some err => Outcome.ret ("", some ("Failed to create request: " ++ err ++ "."))
  | none =>
  let req : HTTPRequest (ChatRequestBody F) :=
    { Method := "POST", URL := url, ContentType := "application/json",
      Authorization := "Bearer " ++ o.apiKey, Body := reqBody }
  match o.HTTPClient with
  | none => Outcome.panic nilPanic
  | some _ =>
  match env.Do req with
  | Except.error err => Outcome.ret ("", some ("HTTP request failed: " ++ err ++ "."))
  | Except.ok resp =>
  if resp.StatusCode ≠ StatusOK then
    match resp.readAll with
    | (_, some err) => Outcome.ret ("", some ("Failed to read response body: " ++ err ++ "."))
    | (bodyBytes, none) =>
      Outcome.ret ("", some ("Failed to generate response from OpenAI: ["
        ++ toString resp.StatusCode ++ "] " ++ bodyBytes ++ "."))
  else
    match resp.decode with
    | Except.error err => Outcome.ret ("", some ("Failed to decode response: " ++ err ++ "."))
    | Except.ok result =>
      match result.Choices with
      | [] => Outcome.panic indexPanic
      | c :: _ => Outcome.ret (c.Message.Content, none)

/-- The method `(*OpenAI).Embed`; the nil slice is `[]`, and the call
`o.HTTPClient.Do(req)` on a nil client is a nil dereference. -/
def Embed {F : Type} (env : HTTPEnv EmbedRequestBody (OpenAIEmbeddingResponse F)) (o : OpenAI)
    (text : String) : Outcome (List F × GoError) :=
  let url := o.baseURL ++ "/v1/embeddings"
  let reqBody : EmbedRequestBody := { model := o.model, input := text }
  match env.marshal reqBody with
  | some err => Outcome.ret ([], some ("Failed to marshal request body: " ++ err ++ "."))
  | none =>
  match env.newRequest "POST" url with
  | some err => Outcome.ret ([], some ("Failed to create request: " ++ err ++ "."))
  | none =>
  let req : HTTPRequest EmbedRequestBody :=
    { Method := "POST", URL := url, ContentType := "application/json",
      Authorization := "Bearer " ++ o.apiKey, Body := reqBody }
  match o.HTTPClient with
  | none => Outcome.panic nilPanic
  | some _ =>
  match env.Do req with
  | Except.error err => Outcome.ret ([], some ("HTTP request failed: " ++ err ++ "."))
  | Except.ok resp =>
  if resp.StatusCode ≠ StatusOK then
    match resp.readAll with
    | (_, some err) => Outcome.ret ([], some ("Failed to read response body: " ++ err))
    | (bodyBytes, none) =>
      Outcome.ret ([], some ("Failed to generate embedding from OpenAI: ["
        ++ toString resp.StatusCode ++ "] " ++ bodyBytes ++ "."))
  else
    match resp.decode with
    | Except.error err => Outcome.ret ([], some ("Failed to decode response: " ++ err ++ "."))
    | Except.ok result =>
      match result.Data with
      | [] => Outcome.panic indexPanic
      | d :: _ => Outcome.ret (d.Embedding, none)

/-- The function `openai.ApiKey`. -/
def ApiKey (s : String) : Opt := Opt.openaiFn (fun o => { o with apiKey := s })

/-- The function `openai.BaseURL`. -/
def BaseURL (s : String) : Opt := Opt.openaiFn (fun o => { o with baseURL := s })

/-- The function `openai.Model`. -/
def Model (s : String) : Opt := Opt.openaiFn (fun o => { o with model := s })

/-- The constant `defaultTimeout`, in seconds. -/
def defaultTimeout : Nat := 30

/-- The loop over `opts` in the registered constructor: `none` when the type
switch reaches its `default` branch, otherwise the instance after every mutator. -/
def applyOptions : List Opt → OpenAI → Option OpenAI
  | [], b => some b
  | Opt.openaiFn f :: rest, b => applyOptions rest (f b)
  | _ :: _, _ => none

/-- The constructor registered by `init` under the name "openai". -/
def factory (opts : List Opt) : Outcome (Option OpenAI × GoError) :=
  match applyOptions opts {} with
  | none => Outcome.ret (none, some "Unknown option.")
  | some b => Outcome.ret (some { b with HTTPClient := some { Timeout := defaultTimeout } }, none)

/-- The function `init` of the package: `backend.Register("openai", ...)`. -/
def init (backends : Factories OpenAI) : Factories OpenAI × Outcome Unit :=
  backend.Register backends "openai" (some factory)

/-- One call of `ApiKey`, `BaseURL` or `Model`, by name and argument. -/
inductive Setting where
  | apiKey (s : String)
  | baseURL (s : String)
  | model (s : String)
  deriving DecidableEq, Repr

/-- The option value a setting stands for. -/
def Setting.toOpt : Setting → Opt
  | Setting.apiKey s => ApiKey s
  | Setting.baseURL s => BaseURL s
  | Setting.model s => Model s

/-- The mutator a setting stands for, as a function on the instance. -/
def Setting.apply : Setting → OpenAI → OpenAI
  | Setting.apiKey s, o => { o with apiKey := s }
  | Setting.baseURL s, o => { o with baseURL := s }
  | Setting.model s, o => { o with model := s }

/-- The argument of a setting if it is an `ApiKey` call. -/
def Setting.apiKey? : Setting → Option String
  | Setting.apiKey s => some s
  | _ => none

/-- The argument of a setting if it is a `BaseURL` call. -/
def Setting.baseURL? : Setting → Option String
  | Setting.baseURL s => some s
  | _ => none

/-- The argument of a setting if it is a `Model` call. -/
def Setting.model? : Setting → Option String
  | Setting.model s => some s
  | _ => none

/-- The last value a list of settings gives to one field, the empty string if none does. -/
def lastSet (pick : Setting → Option String) (ss : List Setting) : String :=
  ((ss.filterMap pick).getLast?).getD ""

/-- Whether an option has the dynamic type `func(*OpenAI)`. -/
def isMutator : Opt → Bool
  | Opt.openaiFn _ => true
  | _ => false

end openai

/-! ## `pkg/db/pgvector/pgvector.go`

The table `openai_embeddings` is a list of rows; a connection is the table
together with the statements sent so far. Each statement sent takes one answer
of the environment, `fault`: `some e` when the server or the network fails the
statement (which then has no effect), `none` when the statement is run. The
similarity query orders rows by a floating-point distance and is left out. -/

namespace pgvector

/-- One row of `openai_embeddings`. -/
structure Row (F : Type) where
  doc_id : String
  embedding : List F
  metadata : Metadata
  deriving DecidableEq, Repr

/-- The database as seen through `p.conn`: the table and the statements sent. -/
structure Conn (F : Type) where
  rows : List (Row F)
  issued : List String
  deriving DecidableEq, Repr

/-- A statement parameter. -/
inductive SqlArg (F : Type) where
  | text (s : String)
  | vector (v : List F)
  | jsonb (m : Metadata)

/-- The well-formed statements over `openai_embeddings` that the engine model runs. -/
inductive Statement where
  | insertRow
  | deleteByDocID
  | selectByDocID
  deriving DecidableEq, Repr

/-- The SQL parser of the engine, on the statement texts it accepts: an
insertion of one row, and a deletion or a selection by `doc_id = $1`.
Any other text among those sent by this package is rejected. -/
def parseStatement (sql : String) : Option Statement :=
  if sql = "INSERT INTO openai_embeddings (doc_id, embedding, metadata) VALUES ($1, $2, $3)" then
    some Statement.insertRow
  else if sql = "DELETE FROM openai_embeddings WHERE doc_id = $1" then
    some Statement.deleteByDocID
  else if sql = "SELECT doc_id, metadata FROM openai_embeddings WHERE doc_id = $1" then
    some Statement.selectByDocID
  else
    none

/-- The error of the engine for a text it cannot parse (class 42601). -/
def sqlParseError : String := "ERROR: syntax error (SQLSTATE 42601)"

/-- The error of the engine for parameters that do not fit the statement. -/
def sqlBindError : String := "ERROR: parameters do not fit the statement"

/-- The error `pgx.ErrNoRows`. -/
def ErrNoRows : String := "no rows in result set"

/-- The call `p.conn.Exec(ctx, sql, args...)`: the connection afterwards and the error. -/
def pgExec {F : Type} (fault : GoError) (c : Conn F) (sql : String) (args : List (SqlArg F)) :
    Conn F × GoError :=
  let sent : Conn F := { c with issued := c.issued ++ [sql] }
  match fault with
  | some e => (sent, some e)
  | none =>
    match parseStatement sql, args with
    | none, _ => (sent, some sqlParseError)
    | some Statement.insertRow, [SqlArg.text id, SqlArg.vector v, SqlArg.jsonb m] =>
      ({ sent with rows := sent.rows ++ [{ doc_id := id, embedding := v, metadata := m }] }, none)
    | some Statement.deleteByDocID, [SqlArg.text id] =>
      ({ sent with rows := sent.rows.filter (fun r => r.doc_id ≠ id) }, none)
    | some Statement.selectByDocID, [SqlArg.text _] => (sent, none)
    | some _, _ => (sent, some sqlBindError)

/-- The calls `p.conn.QueryRow(ctx, sql, args...)` and `row.Scan(&id, &metadata)`
taken together: the connection afterwards, and the first selected row or the error. -/
def pgQueryRowScan {F : Type} (fault : GoError) (c : Conn F) (sql : String)
    (args : List (SqlArg F)) : Conn F × Except String (String × Metadata) :=
  let sent : Conn F := { c with issued := c.issued ++ [sql] }
  match fault with
  | some e => (sent, Except.error e)
  | none =>
    match parseStatement sql, args with
    | none, _ => (sent, Except.error sqlParseError)
    | some Statement.selectByDocID, [SqlArg.text id] =>
      match sent.rows.find? (fun r => r.doc_id = id) with
      | some r => (sent, Except.ok (r.doc_id, r.metadata))
      | none => (sent, Except.error ErrNoRows)
    | some _, _ => (sent, Except.error sqlBindError)

/-- The method `(*PGVector).SaveEmbeddings`. -/
def SaveEmbeddings {F : Type} (fault : GoError) (c : Conn F) (docID : String)
    (embedding : List F) (metadata : Metadata) : Conn F × GoError :=
  let vector := embedding
  let query := "INSERT INTO openai_embeddings (doc_id, embedding, metadata) VALUES ($1, $2, $3)"
  match pgExec fault c query [SqlArg.text docID, SqlArg.vector vector, SqlArg.jsonb metadata] with
  | (c1, some err) => (c1, some ("Failed to insert document: " ++ err ++ "."))
  | (c1, none) => (c1, none)

/-- The method `(*PGVector).InsertDocument`; `newID` is the value of `uuid.New().String()`. -/
def InsertDocument {F : Type} (fault : GoError) (c : Conn F) (newID : String) (content : String)
    (embedding : List F) : Conn F × (String × GoError) :=
  let docID := newID
  let metadata : Metadata := [("content", Value.str content)]
  match SaveEmbeddings fault c docID embedding metadata with
  | (c1, some err) => (c1, ("", some err))
  | (c1, none) => (c1, (docID, none))

/-- The method `(*PGVector).FindByDocID`. -/
def FindByDocID {F : Type} (fault : GoError) (c : Conn F) (docID : String) :
    Conn F × (db.Document × GoError) :=
  let query := "SELECT doc_id, metadata FROM openai_embeddings WHERE doc_id $1"
  let doc : db.Document := { ID := "", Metadata := [] }
  match pgQueryRowScan fault c query [SqlArg.text docID] with
  | (c1, Except.error err) => (c1, (doc, some ("Failed to scan row: " ++ err)))
  | (c1, Except.ok (id, metadata)) => (c1, ({ ID := id, Metadata := metadata }, none))

/-- The method `(*PGVector).DeleteEmbeddings`. -/
def DeleteEmbeddings {F : Type} (fault : GoError) (c : Conn F) (docID : String) :
    Conn F × GoError :=
  let query := "DELETE FROM openai_embeddings WHERE doc_id = $1"
  match pgExec fault c query [SqlArg.text docID] with
  | (c1, some err) => (c1, some ("Failed to delete document: " ++ err ++ "."))
  | (c1, none) => (c1, none)

/-- The method `(*PGVector).UpdateDocument`; `faultDelete` and `faultInsert` are
the answers of the environment to its two statements. -/
def UpdateDocument {F : Type} (faultDelete faultInsert : GoError) (c : Conn F)
    (docID content : String) (embedding : List F) : Conn F × (String × GoError) :=
  let metadata : Metadata := [("content", Value.str content)]
  match DeleteEmbeddings faultDelete c docID with
  | (c1, some err) => (c1, ("", some err))
  | (c1, none) =>
    match SaveEmbeddings faultInsert c1 docID embedding metadata with
    | (c2, some err) => (c2, ("", some err))
    | (c2, none) => (c2, (docID, none))

/-- A variant of `FindByDocID` whose statement text has the comparison
operator that `DeleteEmbeddings` has; it is not in the source. -/
def FindByDocIDWithEquals {F : Type} (fault : GoError) (c : Conn F) (docID : String) :
    Conn F × (db.Document × GoError) :=
  let query := "SELECT doc_id, metadata FROM openai_embeddings WHERE doc_id = $1"
  let doc : db.Document := { ID := "", Metadata := [] }
  match pgQueryRowScan fault c query [SqlArg.text docID] with
  | (c1, Except.error err) => (c1, (doc, some ("Failed to scan row: " ++ err)))
  | (c1, Except.ok (id, metadata)) => (c1, ({ ID := id, Metadata := metadata }, none))

/-- The function `pgvector.DSN`. -/
def DSN (s : String) : Opt := Opt.pgvectorFn (fun d => { d with dsn := s })

/-- The function `pgvector.PGXPool`; a nil pool is `none`. -/
def PGXPool (p : Option Pool) : Opt := Opt.pgvectorFn (fun d => { d with conn := p })

/-- The loop over `opts` in the registered constructor: `none` when the type
switch reaches its `default` branch, otherwise the instance after every mutator. -/
def applyOptions : List Opt → PGVector → Option PGVector
  | [], d => some d
  | Opt.pgvectorFn f :: rest, d => applyOptions rest (f d)
  | _ :: _, _ => none

/-- The constructor registered by `init` under the name "pgvector"; `connect`
is `pgxpool.Connect(context.Background(), dsn)`. -/
def factory (connect : String → Except String Pool) (opts : List Opt) :
    Outcome (Option PGVector × GoError) :=
  match applyOptions opts {} with
  | none => Outcome.ret (none, some "Unknown option.")
  | some d =>
    if d.dsn ≠ "" then
      match connect d.dsn with
      | Except.error err =>
        Outcome.ret (none, some ("Failed to connect to database: " ++ err ++ "."))
      | Except.ok pool => Outcome.ret (some { d with conn := some pool }, none)
    else if d.conn = none then
      Outcome.ret (none, some "Database connection not found.")
    else
      Outcome.ret (some d, none)

/-- The function `init` of the package: `db.Register("pgvector", ...)`. -/
def init (connect : String → Except String Pool) (dbs : Factories PGVector) :
    Factories PGVector × Outcome Unit :=
  db.Register dbs "pgvector" (some (factory connect))

/-- One call of `DSN` or `PGXPool`, by name and argument. -/
inductive Setting where
  | dsn (s : String)
  | pool (p : Option Pool)
  deriving DecidableEq, Repr

/-- The option value a setting stands for. -/
def Setting.toOpt : Setting → Opt
  | Setting.dsn s => DSN s
  | Setting.pool p => PGXPool p

/-- The mutator a setting stands for, as a function on the instance. -/
def Setting.apply : Setting → PGVector → PGVector
  | Setting.dsn s, d => { d with dsn := s }
  | Setting.pool p, d => { d with conn := p }

/-- The argument of a setting if it is a `DSN` call. -/
def Setting.dsn? : Setting → Option String
  | Setting.dsn s => some s
  | _ => none

/-- The argument of a setting if it is a `PGXPool` call. -/
def Setting.pool? : Setting → Option (Option Pool)
  | Setting.pool p => some p
  | _ => none

/-- The last DSN a list of settings gives, the empty string if none does. -/
def lastDSN (ss : List Setting) : String :=
  ((ss.filterMap Setting.dsn?).getLast?).getD ""

/-- The last pool a list of settings gives, nil if none does. -/
def lastPool (ss : List Setting) : Option Pool :=
  ((ss.filterMap Setting.pool?).getLast?).getD none

/-- Whether an option has the dynamic type `func(*PGVector)`. -/
def isMutator : Opt → Bool
  | Opt.pgvectorFn _ => true
  | _ => false

end pgvector

end Rago

/-! # Theorems -/

namespace Rago

/-! ## Prompt augmentation -/

theorem foldl_contextStep (docs : List db.Document) :
    ∀ (acc : String) (cs : List String),
      docs.map (fun d => d.Metadata.index "content") = cs.map Value.str →
      docs.foldl db.contextStep acc = acc ++ db.joinLines cs := by
  induction docs with
  | nil =>
    intro acc cs h
    cases cs with
    | nil => simp [db.joinLines]
    | cons c cs => simp at h
  | cons d ds ih =>
    intro acc cs h
    cases cs with
    | nil => simp at h
    | cons c cs =>
      simp only [List.map_cons, List.cons.injEq] at h
      obtain ⟨hd, hds⟩ := h
      rw [List.foldl_cons, ih _ cs hds]
      simp only [db.contextStep, hd, fmtS, db.joinLines, String.append_assoc]

/-- C1: for every query and every list of documents whose `content` metadata
are the strings `cs`, `CombineQueryWithContext` returns exactly
`"Context: " ++ c1 ++ "\n" ++ ... ++ cn ++ "\n" ++ "\n\nQuery: " ++ query`, the
contents in the order of the list; the result starts with `"Context: "` and
ends with `"\n\nQuery: " ++ query`. Being a function, it depends on its inputs only. -/
theorem combineQueryWithContext_exact (query : String) (docs : List db.Document)
    (cs : List String)
    (h : docs.map (fun d => d.Metadata.index "content") = cs.map Value.str) :
    db.CombineQueryWithContext query docs
        = "Context: " ++ db.joinLines cs ++ "\n\nQuery: " ++ query
      ∧ "Context: ".data <+: (db.CombineQueryWithContext query docs).data
      ∧ ("\n\nQuery: " ++ query).data <:+ (db.CombineQueryWithContext query docs).data := by
  have hctx : docs.foldl db.contextStep "" = db.joinLines cs := by
    rw [foldl_contextStep docs "" cs h, String.empty_append]
  refine ⟨?_, ?_, ?_⟩
  · simp only [db.CombineQueryWithContext, hctx]
  · simp only [db.CombineQueryWithContext, String.data_append, List.append_assoc]
    exact List.prefix_append _ _
  · simp only [db.CombineQueryWithContext, String.data_append, List.append_assoc]
    refine ⟨"Context: ".data ++ (docs.foldl db.contextStep "").data, ?_⟩
    simp only [List.append_assoc]

theorem combineQueryWithContext_exact_witness :
    db.CombineQueryWithContext "when?" [db.contentDoc "1" "a", db.contentDoc "2" "b"]
        = "Context: " ++ db.joinLines ["a", "b"] ++ "\n\nQuery: " ++ "when?"
      ∧ "Context: ".data
          <+: (db.CombineQueryWithContext "when?"
                [db.contentDoc "1" "a", db.contentDoc "2" "b"]).data
      ∧ ("\n\nQuery: " ++ "when?").data
          <:+ (db.CombineQueryWithContext "when?"
                [db.contentDoc "1" "a", db.contentDoc "2" "b"]).data :=
  combineQueryWithContext_exact "when?" [db.contentDoc "1" "a", db.contentDoc "2" "b"]
    ["a", "b"] (by decide)

/-- C10: `CombineQueryWithContext` is not injective. For every query, the two
documents "a", "b" and the single document "a\nb" give the same text; and the
document "x\n\n\nQuery: y" (which contains "\n\nQuery: ") with query "z" gives
the same text as the document "x" with query "y\n\n\nQuery: z". So neither the
function of the pair nor, for any query, the function of the documents is injective. -/
theorem combineQueryWithContext_not_injective :
    (∀ q : String,
        db.CombineQueryWithContext q [db.contentDoc "1" "a", db.contentDoc "2" "b"]
          = db.CombineQueryWithContext q [db.contentDoc "1" "a\nb"])
      ∧ [db.contentDoc "1" "a", db.contentDoc "2" "b"] ≠ [db.contentDoc "1" "a\nb"]
      ∧ db.CombineQueryWithContext "z" [db.contentDoc "1" "x\n\n\nQuery: y"]
          = db.CombineQueryWithContext "y\n\n\nQuery: z" [db.contentDoc "1" "x"]
      ∧ "x\n\n\nQuery: y" = "x\n" ++ "\n\nQuery: " ++ "y"
      ∧ ("z", [db.contentDoc "1" "x\n\n\nQuery: y"])
          ≠ ("y\n\n\nQuery: z", [db.contentDoc "1" "x"])
      ∧ (∀ q : String, ¬ Function.Injective (db.CombineQueryWithContext q))
      ∧ ¬ Function.Injective
          (fun p : String × List db.Document => db.CombineQueryWithContext p.1 p.2) := by
  have hctx : [db.contentDoc "1" "a", db.contentDoc "2" "b"].foldl db.contextStep ""
      = [db.contentDoc "1" "a\nb"].foldl db.contextStep "" := by decide
  have hsame : ∀ q : String,
      db.CombineQueryWithContext q [db.contentDoc "1" "a", db.contentDoc "2" "b"]
        = db.CombineQueryWithContext q [db.contentDoc "1" "a\nb"] := by
    intro q
    simp only [db.CombineQueryWithContext, hctx]
  have hne : [db.contentDoc "1" "a", db.contentDoc "2" "b"] ≠ [db.contentDoc "1" "a\nb"] := by
    decide
  have hpair : db.CombineQueryWithContext "z" [db.contentDoc "1" "x\n\n\nQuery: y"]
      = db.CombineQueryWithContext "y\n\n\nQuery: z" [db.contentDoc "1" "x"] := by decide
  have hpne : (("z", [db.contentDoc "1" "x\n\n\nQuery: y"]) : String × List db.Document)
      ≠ ("y\n\n\nQuery: z", [db.contentDoc "1" "x"]) := by decide
  refine ⟨hsame, hne, hpair, by decide, hpne, ?_, ?_⟩
  · intro q hinj
    exact hne (hinj (hsame q))
  · intro hinj
    exact hpne (hinj hpair)

/-! ## The prompt builder -/

theorem foldl_addMessage {F : Type} (ms : List (String × String)) :
    ∀ p : backend.Prompt F,
      (ms.foldl (fun q m => q.AddMessage m.1 m.2) p).Messages
          = p.Messages ++ ms.map (fun m => { Role := m.1, Content := m.2 })
        ∧ (ms.foldl (fun q m => q.AddMessage m.1 m.2) p).Parameters = p.Parameters := by
  induction ms with
  | nil => intro p; simp
  | cons m ms ih =>
    intro p
    obtain ⟨h1, h2⟩ := ih (p.AddMessage m.1 m.2)
    rw [List.foldl_cons, h1, h2]
    simp only [backend.Prompt.AddMessage, List.map_cons, List.append_assoc,
      List.singleton_append, and_self]

/-- C9: the prompt builder is append-only. `NewPrompt()` has no messages and
zero-valued parameters; `AddMessage(r, c)` makes the messages the previous ones
followed by the one message `{r, c}` and leaves the parameters unchanged;
`SetParameters(params)` sets the parameters and leaves the messages unchanged;
so a chain of `AddMessage` calls on `NewPrompt()` holds exactly the messages
of the calls, in call order, with zero-valued parameters. -/
theorem prompt_builder_append_only {F : Type} [Zero F] :
    (backend.NewPrompt F).Messages = []
      ∧ (backend.NewPrompt F).Parameters
          = { MaxTokens := 0, Temperature := 0, TopP := 0, FrequencyPenalty := 0,
              PresencePenalty := 0 }
      ∧ (∀ (p : backend.Prompt F) (r c : String),
          (p.AddMessage r c).Messages = p.Messages ++ [{ Role := r, Content := c }]
            ∧ (p.AddMessage r c).Parameters = p.Parameters)
      ∧ (∀ (p : backend.Prompt F) (params : backend.Parameters F),
          (p.SetParameters params).Parameters = params
            ∧ (p.SetParameters params).Messages = p.Messages)
      ∧ (∀ ms : List (String × String),
          (ms.foldl (fun q m => q.AddMessage m.1 m.2) (backend.NewPrompt F)).Messages
              = ms.map (fun m => { Role := m.1, Content := m.2 })
            ∧ (ms.foldl (fun q m => q.AddMessage m.1 m.2) (backend.NewPrompt F)).Parameters
              = backend.Parameters.zero F) := by
  refine ⟨rfl, rfl, fun p r c => ⟨rfl, rfl⟩, fun p params => ⟨rfl, rfl⟩, fun ms => ?_⟩
  obtain ⟨h1, h2⟩ := foldl_addMessage ms (backend.NewPrompt F)
  exact ⟨by simpa [backend.NewPrompt] using h1, by simpa [backend.NewPrompt] using h2⟩

/-! ## The registries -/

theorem backend_register_cases {T : Type} (reg : Factories T) (name : String)
    (c : Option (Factory T)) :
    ((∃ msg, (backend.Register reg name c).2 = Outcome.fatal msg)
        ↔ (c = none ∨ (reg name).isSome))
      ∧ (¬ (c = none ∨ (reg name).isSome) →
          (backend.Register reg name c).2 = Outcome.ret ()
            ∧ (backend.Register reg name c).1 name = c
            ∧ ∀ n, n ≠ name → (backend.Register reg name c).1 n = reg n) := by
  cases c with
  | none => simp [backend.Register]
  | some f =>
    cases h : reg name with
    | some g => simp [backend.Register, h]
    | none =>
      simp only [backend.Register, h, Factories.set]
      refine ⟨by simp, fun _ => ⟨by simp, by simp, fun n hn => by simp [hn]⟩⟩

theorem db_register_cases {T : Type} (reg : Factories T) (name : String)
    (c : Option (Factory T)) :
    ((∃ msg, (db.Register reg name c).2 = Outcome.fatal msg)
        ↔ (c = none ∨ (reg name).isSome))
      ∧ (¬ (c = none ∨ (reg name).isSome) →
          (db.Register reg name c).2 = Outcome.ret ()
            ∧ (db.Register reg name c).1 name = c
            ∧ ∀ n, n ≠ name → (db.Register reg name c).1 n = reg n) := by
  cases c with
  | none => simp [db.Register]
  | some f =>
    cases h : reg name with
    | some g => simp [db.Register, h]
    | none =>
      simp only [db.Register, h, Factories.set]
      refine ⟨by simp, fun _ => ⟨by simp, by simp, fun n hn => by simp [hn]⟩⟩

/-- C3: for every registry, name and constructor, `backend.Register` and
`db.Register` end in a fatal log if and only if the constructor is nil or the
name is already registered; otherwise the call returns, and afterwards the
registry maps the name to that constructor and every other name to what it
mapped to before. -/
theorem register_fatal_iff {T : Type} (reg : Factories T) (name : String)
    (c : Option (Factory T)) :
    (((∃ msg, (backend.Register reg name c).2 = Outcome.fatal msg)
          ↔ (c = none ∨ (reg name).isSome))
        ∧ (¬ (c = none ∨ (reg name).isSome) →
            (backend.Register reg name c).2 = Outcome.ret ()
              ∧ (backend.Register reg name c).1 name = c
              ∧ ∀ n, n ≠ name → (backend.Register reg name c).1 n = reg n))
      ∧ (((∃ msg, (db.Register reg name c).2 = Outcome.fatal msg)
          ↔ (c = none ∨ (reg name).isSome))
        ∧ (¬ (c = none ∨ (reg name).isSome) →
            (db.Register reg name c).2 = Outcome.ret ()
              ∧ (db.Register reg name c).1 name = c
              ∧ ∀ n, n ≠ name → (db.Register reg name c).1 n = reg n)) :=
  ⟨backend_register_cases reg name c, db_register_cases reg name c⟩

theorem register_fatal_iff_witness :
    (backend.Register (Factories.empty OpenAI) "openai" (some openai.factory)).2
        = Outcome.ret ()
      ∧ (backend.Register (Factories.empty OpenAI) "openai" (some openai.factory)).1 "openai"
        = some openai.factory
      ∧ ∀ n, n ≠ "openai" →
          (backend.Register (Factories.empty OpenAI) "openai" (some openai.factory)).1 n
            = Factories.empty OpenAI n :=
  (register_fatal_iff (Factories.empty OpenAI) "openai" (some openai.factory)).1.2
    (by simp [Factories.empty])

theorem backend_register_twice {T : Type} (reg : Factories T) (name : String)
    (f g : Factory T) (opts : List Opt)
    (h : (backend.Register reg name (some f)).2 = Outcome.ret ()) :
    (backend.Register (backend.Register reg name (some f)).1 name (some g)).2
        = Outcome.fatal ("Backend " ++ name ++ " already registered.")
      ∧ (backend.Register (backend.Register reg name (some f)).1 name (some g)).1
        = (backend.Register reg name (some f)).1
      ∧ (backend.Register (backend.Register reg name (some f)).1 name (some g)).1 name
        = some f
      ∧ backend.NewBackend
          (backend.Register (backend.Register reg name (some f)).1 name (some g)).1 name opts
        = f opts := by
  cases hr : reg name with
  | some k => simp [backend.Register, hr] at h
  | none => simp [backend.Register, backend.NewBackend, hr, Factories.set]

theorem db_register_twice {T : Type} (reg : Factories T) (name : String)
    (f g : Factory T) (opts : List Opt)
    (h : (db.Register reg name (some f)).2 = Outcome.ret ()) :
    (db.Register (db.Register reg name (some f)).1 name (some g)).2
        = Outcome.fatal ("Database " ++ name ++ " already registered.")
      ∧ (db.Register (db.Register reg name (some f)).1 name (some g)).1
        = (db.Register reg name (some f)).1
      ∧ (db.Register (db.Register reg name (some f)).1 name (some g)).1 name
        = some f
      ∧ db.NewDB
          (db.Register (db.Register reg name (some f)).1 name (some g)).1 name opts
        = f opts := by
  cases hr : reg name with
  | some k => simp [db.Register, hr] at h
  | none => simp [db.Register, db.NewDB, hr, Factories.set]

/-- C4: for every name and constructors `f`, `g`, if `Register(name, f)`
returns then a later `Register(name, g)` ends in the fatal log "already
registered" and leaves the registry as it was: the name still maps to `f`, and
`NewBackend` / `NewDB` on that name returns `f(opts)`, hence not `g(opts)`
wherever the two differ. -/
theorem register_first_wins {T : Type} (reg : Factories T) (name : String)
    (f g : Factory T) (opts : List Opt) :
    ((backend.Register reg name (some f)).2 = Outcome.ret () →
        (backend.Register (backend.Register reg name (some f)).1 name (some g)).2
            = Outcome.fatal ("Backend " ++ name ++ " already registered.")
          ∧ (backend.Register (backend.Register reg name (some f)).1 name (some g)).1
            = (backend.Register reg name (some f)).1
          ∧ (backend.Register (backend.Register reg name (some f)).1 name (some g)).1 name
            = some f
          ∧ backend.NewBackend
              (backend.Register (backend.Register reg name (some f)).1 name (some g)).1
              name opts = f opts
          ∧ (f opts ≠ g opts →
              backend.NewBackend
                (backend.Register (backend.Register reg name (some f)).1 name (some g)).1
                name opts ≠ g opts))
      ∧ ((db.Register reg name (some f)).2 = Outcome.ret () →
        (db.Register (db.Register reg name (some f)).1 name (some g)).2
            = Outcome.fatal ("Database " ++ name ++ " already registered.")
          ∧ (db.Register (db.Register reg name (some f)).1 name (some g)).1
            = (db.Register reg name (some f)).1
          ∧ (db.Register (db.Register reg name (some f)).1 name (some g)).1 name
            = some f
          ∧ db.NewDB
              (db.Register (db.Register reg name (some f)).1 name (some g)).1
              name opts = f opts
          ∧ (f opts ≠ g opts →
              db.NewDB
                (db.Register (db.Register reg name (some f)).1 name (some g)).1
                name opts ≠ g opts)) := by
  constructor
  · intro h
    obtain ⟨h1, h2, h3, h4⟩ := backend_register_twice reg name f g opts h
    exact ⟨h1, h2, h3, h4, fun hne => by rw [h4]; exact hne⟩
  · intro h
    obtain ⟨h1, h2, h3, h4⟩ := db_register_twice reg name f g opts h
    exact ⟨h1, h2, h3, h4, fun hne => by rw [h4]; exact hne⟩

theorem register_first_wins_witness :
    (backend.Register
        (backend.Register (Factories.empty OpenAI) "openai" (some openai.factory)).1
        "openai" (some (fun _ => Outcome.ret (none, some "second")))).2
        = Outcome.fatal ("Backend " ++ "openai" ++ " already registered.")
      ∧ backend.NewBackend
          (backend.Register
            (backend.Register (Factories.empty OpenAI) "openai" (some openai.factory)).1
            "openai" (some (fun _ => Outcome.ret (none, some "second")))).1
          "openai" [openai.Model "m"]
        = openai.factory [openai.Model "m"] :=
  have h := (register_first_wins (Factories.empty OpenAI) "openai" openai.factory
    (fun _ => Outcome.ret (none, some "second")) [openai.Model "m"]).1 rfl
  ⟨h.1, h.2.2.2.1⟩

/-- C5: for every registry, every name not registered in it and every option
list, `NewBackend` and `NewDB` end in the fatal log "Backend not found." /
"Database not found."; they do not return, so they return neither an
instance nor the error "Unknown option." of a constructor, and the ending
is the same whatever constructors the registry holds under other names. -/
theorem create_unregistered_not_found {T : Type} (reg : Factories T) (name : String)
    (opts : List Opt) (h : reg name = none) :
    backend.NewBackend reg name opts = Outcome.fatal "Backend not found."
      ∧ db.NewDB reg name opts = Outcome.fatal "Database not found."
      ∧ (∀ r, backend.NewBackend reg name opts ≠ Outcome.ret r)
      ∧ (∀ r, db.NewDB reg name opts ≠ Outcome.ret r)
      ∧ backend.NewBackend reg name opts ≠ Outcome.ret (none, some "Unknown option.")
      ∧ db.NewDB reg name opts ≠ Outcome.ret (none, some "Unknown option.") := by
  simp [backend.NewBackend, db.NewDB, h]

theorem create_unregistered_not_found_witness :
    backend.NewBackend (openai.init (Factories.empty OpenAI)).1 "ollama" [openai.Model "m"]
        = Outcome.fatal "Backend not found."
      ∧ db.NewDB (openai.init (Factories.empty OpenAI)).1 "ollama" [openai.Model "m"]
        = Outcome.fatal "Database not found." :=
  have h := create_unregistered_not_found (openai.init (Factories.empty OpenAI)).1 "ollama"
    [openai.Model "m"] (by simp [openai.init, backend.Register, Factories.empty, Factories.set])
  ⟨h.1, h.2.1⟩

/-! ## The OpenAI adapter: empty responses -/

/-- C2: for a receiver with an HTTP client (as the constructor builds it), on
a successfully decoded chat response with zero choices `Generate` panics with
an index out of range, and on a successfully decoded embedding response with
zero data entries `Embed` panics likewise: neither returns an error. With at
least one entry, `Generate` returns the content of the first choice and `Embed`
the embedding of the first entry, both with a nil error. -/
theorem generate_embed_on_decoded_response {F : Type} :
    (∀ (env : openai.HTTPEnv (openai.ChatRequestBody F) openai.OpenAIResponse) (o : OpenAI)
        (prompt : backend.Prompt F) (r : openai.OpenAIResponse),
        o.HTTPClient ≠ none → env.Serves r → r.Choices = [] →
          openai.Generate env o prompt = Outcome.panic openai.indexPanic)
      ∧ (∀ (env : openai.HTTPEnv openai.EmbedRequestBody (openai.OpenAIEmbeddingResponse F))
        (o : OpenAI) (text : String) (r : openai.OpenAIEmbeddingResponse F),
        o.HTTPClient ≠ none → env.Serves r → r.Data = [] →
          openai.Embed env o text = Outcome.panic openai.indexPanic)
      ∧ (∀ (env : openai.HTTPEnv (openai.ChatRequestBody F) openai.OpenAIResponse) (o : OpenAI)
        (prompt : backend.Prompt F) (r : openai.OpenAIResponse) (c : openai.Choice)
        (cs : List openai.Choice),
        o.HTTPClient ≠ none → env.Serves r → r.Choices = c :: cs →
          openai.Generate env o prompt = Outcome.ret (c.Message.Content, none))
      ∧ (∀ (env : openai.HTTPEnv openai.EmbedRequestBody (openai.OpenAIEmbeddingResponse F))
        (o : OpenAI) (text : String) (r : openai.OpenAIEmbeddingResponse F)
        (d : openai.EmbeddingData F) (ds : List (openai.EmbeddingData F)),
        o.HTTPClient ≠ none → env.Serves r → r.Data = d :: ds →
          openai.Embed env o text = Outcome.ret (d.Embedding, none)) := by
  refine ⟨?_, ?_, ?_, ?_⟩
  · rintro env o prompt r ho ⟨hm, hn, resp, hdo, hst, hdec⟩ hr
    obtain ⟨cl, hcl⟩ := Option.ne_none_iff_exists'.mp ho
    simp [openai.Generate, hm, hn, hdo, hst, hdec, hr, hcl]
  · rintro env o text r ho ⟨hm, hn, resp, hdo, hst, hdec⟩ hr
    obtain ⟨cl, hcl⟩ := Option.ne_none_iff_exists'.mp ho
    simp [openai.Embed, hm, hn, hdo, hst, hdec, hr, hcl]
  · rintro env o prompt r c cs ho ⟨hm, hn, resp, hdo, hst, hdec⟩ hr
    obtain ⟨cl, hcl⟩ := Option.ne_none_iff_exists'.mp ho
    simp [openai.Generate, hm, hn, hdo, hst, hdec, hr, hcl]
  · rintro env o text r d ds ho ⟨hm, hn, resp, hdo, hst, hdec⟩ hr
    obtain ⟨cl, hcl⟩ := Option.ne_none_iff_exists'.mp ho
    simp [openai.Embed, hm, hn, hdo, hst, hdec, hr, hcl]

theorem served_serves {B R : Type} (r : R) : (openai.served r : openai.HTTPEnv B R).Serves r :=
  ⟨fun _ => rfl, fun _ _ => rfl, _, fun _ => rfl, rfl, rfl⟩

/-- On a receiver whose client is nil, once the request is built, both
methods panic with a nil dereference whatever the response would be. -/
theorem generate_embed_nil_client {F : Type} :
    (∀ (env : openai.HTTPEnv (openai.ChatRequestBody F) openai.OpenAIResponse) (o : OpenAI)
        (prompt : backend.Prompt F) (r : openai.OpenAIResponse),
        o.HTTPClient = none → env.Serves r →
          openai.Generate env o prompt = Outcome.panic openai.nilPanic)
      ∧ (∀ (env : openai.HTTPEnv openai.EmbedRequestBody (openai.OpenAIEmbeddingResponse F))
        (o : OpenAI) (text : String) (r : openai.OpenAIEmbeddingResponse F),
        o.HTTPClient = none → env.Serves r →
          openai.Embed env o text = Outcome.panic openai.nilPanic) := by
  refine ⟨?_, ?_⟩
  · rintro env o prompt r ho ⟨hm, hn, resp, hdo, hst, hdec⟩
    simp [openai.Generate, hm, hn, ho]
  · rintro env o text r ho ⟨hm, hn, resp, hdo, hst, hdec⟩
    simp [openai.Embed, hm, hn, ho]

theorem generate_embed_on_decoded_response_witness :
    openai.factory [openai.ApiKey "k", openai.BaseURL "https://api.openai.com", openai.Model "m"]
        = Outcome.ret
            (some { apiKey := "k", baseURL := "https://api.openai.com", model := "m",
                    HTTPClient := some { Timeout := 30 } }, none)
      ∧ openai.Generate
        (openai.served
          { ID := "chatcmpl-1", Object := "chat.completion", Created := 0, Model := "m",
            Choices := [], Usage := { PromptTokens := 0, CompletionTokens := 0, TotalTokens := 0 } })
        { apiKey := "k", baseURL := "https://api.openai.com", model := "m",
          HTTPClient := some { Timeout := 30 } }
        (backend.NewPrompt Int)
        = Outcome.panic "runtime error: index out of range [0] with length 0"
      ∧ openai.Embed
        (openai.served
          ({ Object := "list", Data := [], Model := "m",
             Usage := { PromptTokens := 0, TotalTokens := 0 } } :
            openai.OpenAIEmbeddingResponse Int))
        { apiKey := "k", baseURL := "https://api.openai.com", model := "m",
          HTTPClient := some { Timeout := 30 } }
        "text"
        = Outcome.panic "runtime error: index out of range [0] with length 0"
      ∧ openai.Generate
        (openai.served
          { ID := "chatcmpl-1", Object := "chat.completion", Created := 0, Model := "m",
            Choices := [{ Index := 0, Message := { Role := "assistant", Content := "1945" },
                          FinishReason := "stop" }],
            Usage := { PromptTokens := 0, CompletionTokens := 0, TotalTokens := 0 } })
        { apiKey := "k", baseURL := "https://api.openai.com", model := "m",
          HTTPClient := some { Timeout := 30 } }
        (backend.NewPrompt Int)
        = Outcome.ret ("1945", none)
      ∧ openai.Embed
        (openai.served
          ({ Object := "list", Data := [{ Object := "embedding", Embedding := [1, 2], Index := 0 }],
             Model := "m", Usage := { PromptTokens := 0, TotalTokens := 0 } } :
            openai.OpenAIEmbeddingResponse Int))
        { apiKey := "k", baseURL := "https://api.openai.com", model := "m",
          HTTPClient := some { Timeout := 30 } }
        "text"
        = Outcome.ret ([1, 2], none) :=
  ⟨rfl,
   (generate_embed_on_decoded_response (F := Int)).1 _ _ _ _ (by decide) (served_serves _) rfl,
   (generate_embed_on_decoded_response (F := Int)).2.1 _ _ _ _ (by decide) (served_serves _) rfl,
   (generate_embed_on_decoded_response (F := Int)).2.2.1 _ _ _ _ _ _ (by decide)
     (served_serves _) rfl,
   (generate_embed_on_decoded_response (F := Int)).2.2.2 _ _ _ _ _ _ (by decide)
     (served_serves _) rfl⟩

/-! ## The constructors and their options -/

theorem openai_applyOptions_map (fs : List (OpenAI → OpenAI)) :
    ∀ b : OpenAI,
      openai.applyOptions (fs.map Opt.openaiFn) b = some (fs.foldl (fun b f => f b) b) := by
  induction fs with
  | nil => intro b; rfl
  | cons f fs ih => intro b; simp [openai.applyOptions, ih]

theorem openai_applyOptions_unknown (opts : List Opt) :
    ∀ b : OpenAI, (∃ o ∈ opts, openai.isMutator o = false) →
      openai.applyOptions opts b = none := by
  induction opts with
  | nil => intro b h; simp at h
  | cons o opts ih =>
    intro b h
    cases o with
    | openaiFn f =>
      simp only [List.mem_cons, exists_eq_or_imp, openai.isMutator] at h
      simp only [openai.applyOptions]
      exact ih _ (by simpa using h)
    | pgvectorFn f => rfl
    | other v => rfl

theorem pgvector_applyOptions_map (fs : List (PGVector → PGVector)) :
    ∀ d : PGVector,
      pgvector.applyOptions (fs.map Opt.pgvectorFn) d = some (fs.foldl (fun d f => f d) d) := by
  induction fs with
  | nil => intro d; rfl
  | cons f fs ih => intro d; simp [pgvector.applyOptions, ih]

theorem pgvector_applyOptions_unknown (opts : List Opt) :
    ∀ d : PGVector, (∃ o ∈ opts, pgvector.isMutator o = false) →
      pgvector.applyOptions opts d = none := by
  induction opts with
  | nil => intro d h; simp at h
  | cons o opts ih =>
    intro d h
    cases o with
    | pgvectorFn f =>
      simp only [List.mem_cons, exists_eq_or_imp, pgvector.isMutator] at h
      simp only [pgvector.applyOptions]
      exact ih _ (by simpa using h)
    | openaiFn f => rfl
    | other v => rfl

theorem getLast?_cons_getD {α : Type} (v d : α) (l : List α) :
    ((v :: l).getLast?).getD d = (l.getLast?).getD v := by
  cases l with
  | nil => rfl
  | cons a l => simp [List.getLast?_cons_cons, List.getLast?_eq_getLast]

theorem settings_foldl_fields (ss : List openai.Setting) :
    ∀ b : OpenAI,
      (ss.foldl (fun b s => s.apply b) b).apiKey
          = ((ss.filterMap openai.Setting.apiKey?).getLast?).getD b.apiKey
        ∧ (ss.foldl (fun b s => s.apply b) b).baseURL
          = ((ss.filterMap openai.Setting.baseURL?).getLast?).getD b.baseURL
        ∧ (ss.foldl (fun b s => s.apply b) b).model
          = ((ss.filterMap openai.Setting.model?).getLast?).getD b.model := by
  induction ss with
  | nil => intro b; simp
  | cons s ss ih =>
    intro b
    obtain ⟨h1, h2, h3⟩ := ih (s.apply b)
    rw [List.foldl_cons, h1, h2, h3]
    cases s <;>
      simp [openai.Setting.apply, openai.Setting.apiKey?, openai.Setting.baseURL?,
        openai.Setting.model?, List.filterMap_cons, getLast?_cons_getD]

theorem settings_map_toOpt (ss : List openai.Setting) :
    ss.map openai.Setting.toOpt = (ss.map openai.Setting.apply).map Opt.openaiFn := by
  induction ss with
  | nil => rfl
  | cons s ss ih =>
    cases s <;> simp [ih, openai.Setting.toOpt, openai.Setting.apply, openai.ApiKey,
      openai.BaseURL, openai.Model] <;> rfl

theorem pgvector_settings_foldl_fields (ss : List pgvector.Setting) :
    ∀ d : PGVector,
      (ss.foldl (fun d s => s.apply d) d).dsn
          = ((ss.filterMap pgvector.Setting.dsn?).getLast?).getD d.dsn
        ∧ (ss.foldl (fun d s => s.apply d) d).conn
          = ((ss.filterMap pgvector.Setting.pool?).getLast?).getD d.conn := by
  induction ss with
  | nil => intro d; simp
  | cons s ss ih =>
    intro d
    obtain ⟨h1, h2⟩ := ih (s.apply d)
    rw [List.foldl_cons, h1, h2]
    cases s <;>
      simp [pgvector.Setting.apply, pgvector.Setting.dsn?, pgvector.Setting.pool?,
        List.filterMap_cons, getLast?_cons_getD]

theorem pgvector_settings_map_toOpt (ss : List pgvector.Setting) :
    ss.map pgvector.Setting.toOpt = (ss.map pgvector.Setting.apply).map Opt.pgvectorFn := by
  induction ss with
  | nil => rfl
  | cons s ss ih =>
    cases s <;> simp [ih, pgvector.Setting.toOpt, pgvector.Setting.apply, pgvector.DSN,
      pgvector.PGXPool] <;> rfl

theorem pgvector_applyOptions_settings (ss : List pgvector.Setting) :
    pgvector.applyOptions (ss.map pgvector.Setting.toOpt) ({ } : PGVector)
      = some { dsn := pgvector.lastDSN ss, conn := pgvector.lastPool ss } := by
  obtain ⟨h1, h2⟩ := pgvector_settings_foldl_fields ss ({ } : PGVector)
  rw [pgvector_settings_map_toOpt, pgvector_applyOptions_map, List.foldl_map]
  simp only [pgvector.lastDSN, pgvector.lastPool, ← h1, ← h2]

/-- C6: the constructor registered as "openai", given only `func(*OpenAI)`
options, returns the zero-valued instance after every mutator in list order
(with the HTTP client set), so for options made by `ApiKey`, `BaseURL` and
`Model` each field holds the last value given to it, or the empty string;
given any option of another dynamic type it returns no instance and the error
"Unknown option.". The constructor registered as "pgvector" treats its options
in the same way: for options made by `DSN` and `PGXPool` the loop leaves the
last DSN (or the empty string) and the last pool (or nil), and any option of
another dynamic type gives "Unknown option."; when the DSN so set is empty it
returns "Database connection not found." if the pool is nil and the instance
otherwise, and with a non-empty DSN its result is that of connecting. Both
constructors are what `init` registers, and what `NewBackend` / `NewDB` run. -/
theorem constructor_options (connect : String → Except String Pool) :
    (∀ fs : List (OpenAI → OpenAI),
        openai.factory (fs.map Opt.openaiFn)
          = Outcome.ret
              (some { fs.foldl (fun b f => f b) ({ } : OpenAI) with
                        HTTPClient := some { Timeout := 30 } }, none))
      ∧ (∀ ss : List openai.Setting,
        openai.factory (ss.map openai.Setting.toOpt)
          = Outcome.ret
              (some { apiKey := openai.lastSet openai.Setting.apiKey? ss
                      baseURL := openai.lastSet openai.Setting.baseURL? ss
                      model := openai.lastSet openai.Setting.model? ss
                      HTTPClient := some { Timeout := 30 } }, none))
      ∧ (∀ opts : List Opt, (∃ o ∈ opts, openai.isMutator o = false) →
        openai.factory opts = Outcome.ret (none, some "Unknown option."))
      ∧ (∀ opts : List Opt, (∃ o ∈ opts, pgvector.isMutator o = false) →
        pgvector.factory connect opts = Outcome.ret (none, some "Unknown option."))
      ∧ (∀ fs : List (PGVector → PGVector),
        (fs.foldl (fun d f => f d) ({ } : PGVector)).dsn = "" →
        (fs.foldl (fun d f => f d) ({ } : PGVector)).conn = none →
        pgvector.factory connect (fs.map Opt.pgvectorFn)
          = Outcome.ret (none, some "Database connection not found."))
      ∧ (∀ fs : List (PGVector → PGVector),
        (fs.foldl (fun d f => f d) ({ } : PGVector)).dsn = "" →
        (fs.foldl (fun d f => f d) ({ } : PGVector)).conn ≠ none →
        pgvector.factory connect (fs.map Opt.pgvectorFn)
          = Outcome.ret (some (fs.foldl (fun d f => f d) ({ } : PGVector)), none))
      ∧ (∀ (fs : List (PGVector → PGVector)) (pool : Pool),
        (fs.foldl (fun d f => f d) ({ } : PGVector)).dsn ≠ "" →
        connect (fs.foldl (fun d f => f d) ({ } : PGVector)).dsn = Except.ok pool →
        pgvector.factory connect (fs.map Opt.pgvectorFn)
          = Outcome.ret
              (some { fs.foldl (fun d f => f d) ({ } : PGVector) with conn := some pool }, none))
      ∧ (∀ (fs : List (PGVector → PGVector)) (err : String),
        (fs.foldl (fun d f => f d) ({ } : PGVector)).dsn ≠ "" →
        connect (fs.foldl (fun d f => f d) ({ } : PGVector)).dsn = Except.error err →
        pgvector.factory connect (fs.map Opt.pgvectorFn)
          = Outcome.ret (none, some ("Failed to connect to database: " ++ err ++ ".")))
      ∧ (∀ ss : List pgvector.Setting,
        pgvector.applyOptions (ss.map pgvector.Setting.toOpt) ({ } : PGVector)
          = some { dsn := pgvector.lastDSN ss, conn := pgvector.lastPool ss })
      ∧ (∀ ss : List pgvector.Setting,
        pgvector.lastDSN ss = "" → pgvector.lastPool ss = none →
        pgvector.factory connect (ss.map pgvector.Setting.toOpt)
          = Outcome.ret (none, some "Database connection not found."))
      ∧ (∀ (ss : List pgvector.Setting) (p : Pool),
        pgvector.lastDSN ss = "" → pgvector.lastPool ss = some p →
        pgvector.factory connect (ss.map pgvector.Setting.toOpt)
          = Outcome.ret (some { dsn := "", conn := some p }, none))
      ∧ (∀ (ss : List pgvector.Setting) (pool : Pool),
        pgvector.lastDSN ss ≠ "" → connect (pgvector.lastDSN ss) = Except.ok pool →
        pgvector.factory connect (ss.map pgvector.Setting.toOpt)
          = Outcome.ret (some { dsn := pgvector.lastDSN ss, conn := some pool }, none))
      ∧ (∀ (ss : List pgvector.Setting) (err : String),
        pgvector.lastDSN ss ≠ "" → connect (pgvector.lastDSN ss) = Except.error err →
        pgvector.factory connect (ss.map pgvector.Setting.toOpt)
          = Outcome.ret (none, some ("Failed to connect to database: " ++ err ++ ".")))
      ∧ (∀ opts : List Opt,
        backend.NewBackend (openai.init (Factories.empty OpenAI)).1 "openai" opts
          = openai.factory opts)
      ∧ (∀ opts : List Opt,
        db.NewDB (pgvector.init connect (Factories.empty PGVector)).1 "pgvector" opts
          = pgvector.factory connect opts) := by
  refine ⟨?_, ?_, ?_, ?_, ?_, ?_, ?_, ?_, pgvector_applyOptions_settings, ?_, ?_, ?_, ?_, ?_, ?_⟩
  · intro fs
    simp [openai.factory, openai_applyOptions_map, openai.defaultTimeout]
  · intro ss
    obtain ⟨h1, h2, h3⟩ := settings_foldl_fields ss ({ } : OpenAI)
    simp only [openai.factory, settings_map_toOpt, openai_applyOptions_map, List.foldl_map,
      openai.defaultTimeout, openai.lastSet]
    rw [h1, h2, h3]
  · intro opts h
    simp [openai.factory, openai_applyOptions_unknown opts _ h]
  · intro opts h
    simp [pgvector.factory, pgvector_applyOptions_unknown opts _ h]
  · intro fs hd hc
    simp [pgvector.factory, pgvector_applyOptions_map, hd, hc]
  · intro fs hd hc
    simp [pgvector.factory, pgvector_applyOptions_map, hd, hc]
  · intro fs pool hd hc
    simp [pgvector.factory, pgvector_applyOptions_map, hd, hc]
  · intro fs err hd hc
    simp [pgvector.factory, pgvector_applyOptions_map, hd, hc]
  · intro ss hd hc
    simp [pgvector.factory, pgvector_applyOptions_settings, hd, hc]
  · intro ss p hd hc
    simp [pgvector.factory, pgvector_applyOptions_settings, hd, hc]
  · intro ss pool hd hc
    simp [pgvector.factory, pgvector_applyOptions_settings, hd, hc]
  · intro ss err hd hc
    simp [pgvector.factory, pgvector_applyOptions_settings, hd, hc]
  · intro opts
    simp [openai.init, backend.Register, backend.NewBackend, Factories.empty, Factories.set]
  · intro opts
    simp [pgvector.init, db.Register, db.NewDB, Factories.empty, Factories.set]

theorem constructor_options_witness :
    openai.factory [openai.ApiKey "k", Opt.other (Value.str "timeout")]
        = Outcome.ret (none, some "Unknown option.")
      ∧ pgvector.factory (fun _ => Except.error "refused") [openai.ApiKey "k"]
        = Outcome.ret (none, some "Unknown option.")
      ∧ pgvector.factory (fun _ => Except.error "refused")
          [pgvector.DSN "postgres://a", pgvector.PGXPool none, pgvector.DSN ""]
        = Outcome.ret (none, some "Database connection not found.")
      ∧ pgvector.factory (fun _ => Except.error "refused")
          [pgvector.DSN "", pgvector.PGXPool (some { handle := 7 })]
        = Outcome.ret (some { dsn := "", conn := some { handle := 7 } }, none)
      ∧ pgvector.factory (fun _ => Except.ok { handle := 1 })
          [pgvector.DSN "postgres://a", pgvector.DSN "postgres://b"]
        = Outcome.ret (some { dsn := "postgres://b", conn := some { handle := 1 } }, none)
      ∧ pgvector.factory (fun _ => Except.error "refused") [pgvector.DSN "postgres://a"]
        = Outcome.ret (none, some ("Failed to connect to database: " ++ "refused" ++ ".")) :=
  ⟨(constructor_options (fun _ => Except.error "refused")).2.2.1
      [openai.ApiKey "k", Opt.other (Value.str "timeout")]
      ⟨Opt.other (Value.str "timeout"), by simp, rfl⟩,
   (constructor_options (fun _ => Except.error "refused")).2.2.2.1
      [openai.ApiKey "k"] ⟨openai.ApiKey "k", by simp, rfl⟩,
   (constructor_options (fun _ => Except.error "refused")).2.2.2.2.2.2.2.2.2.1
      [pgvector.Setting.dsn "postgres://a", pgvector.Setting.pool none, pgvector.Setting.dsn ""]
      (by decide) (by decide),
   (constructor_options (fun _ => Except.error "refused")).2.2.2.2.2.2.2.2.2.2.1
      [pgvector.Setting.dsn "", pgvector.Setting.pool (some { handle := 7 })] { handle := 7 }
      (by decide) (by decide),
   (constructor_options (fun _ => Except.ok { handle := 1 })).2.2.2.2.2.2.2.2.2.2.2.1
      [pgvector.Setting.dsn "postgres://a", pgvector.Setting.dsn "postgres://b"] { handle := 1 }
      (by decide) rfl,
   (constructor_options (fun _ => Except.error "refused")).2.2.2.2.2.2.2.2.2.2.2.2.1
      [pgvector.Setting.dsn "postgres://a"] "refused" (by decide) rfl⟩

/-! ## The pgvector store -/

theorem parse_find_text :
    pgvector.parseStatement "SELECT doc_id, metadata FROM openai_embeddings WHERE doc_id $1"
      = none := by decide

theorem findByDocID_never_succeeds {F : Type} (fault : GoError) (c : pgvector.Conn F)
    (docID : String) :
    ∃ e, (pgvector.FindByDocID fault c docID).2 = ({ ID := "", Metadata := [] }, some e) := by
  cases fault with
  | some e =>
    exact ⟨"Failed to scan row: " ++ e, by simp [pgvector.FindByDocID, pgvector.pgQueryRowScan]⟩
  | none =>
    exact ⟨"Failed to scan row: " ++ pgvector.sqlParseError,
      by simp [pgvector.FindByDocID, pgvector.pgQueryRowScan, parse_find_text]⟩

theorem saveEmbeddings_run {F : Type} (c : pgvector.Conn F) (docID : String)
    (embedding : List F) (metadata : Metadata) :
    pgvector.SaveEmbeddings none c docID embedding metadata
      = ({ rows := c.rows ++ [{ doc_id := docID, embedding := embedding, metadata := metadata }]
           issued := c.issued ++
            ["INSERT INTO openai_embeddings (doc_id, embedding, metadata) VALUES ($1, $2, $3)"] },
         none) := by
  have hp : pgvector.parseStatement
      "INSERT INTO openai_embeddings (doc_id, embedding, metadata) VALUES ($1, $2, $3)"
      = some pgvector.Statement.insertRow := by decide
  simp [pgvector.SaveEmbeddings, pgvector.pgExec, hp]

theorem deleteEmbeddings_run {F : Type} (c : pgvector.Conn F) (docID : String) :
    pgvector.DeleteEmbeddings none c docID
      = ({ rows := c.rows.filter (fun r => r.doc_id ≠ docID)
           issued := c.issued ++ ["DELETE FROM openai_embeddings WHERE doc_id = $1"] },
         none) := by
  have hp : pgvector.parseStatement "DELETE FROM openai_embeddings WHERE doc_id = $1"
      = some pgvector.Statement.deleteByDocID := by decide
  simp [pgvector.DeleteEmbeddings, pgvector.pgExec, hp]

theorem deleteEmbeddings_fault {F : Type} (e : String) (c : pgvector.Conn F) (docID : String) :
    pgvector.DeleteEmbeddings (some e) c docID
      = ({ rows := c.rows
           issued := c.issued ++ ["DELETE FROM openai_embeddings WHERE doc_id = $1"] },
         some ("Failed to delete document: " ++ e ++ ".")) := by
  simp [pgvector.DeleteEmbeddings, pgvector.pgExec]

/-- With the comparison operator in the statement text, finding the identifier
just inserted returns the inserted content, provided the identifier is new. -/
theorem findWithEquals_after_insert {F : Type} (c : pgvector.Conn F)
    (newID content : String) (embedding : List F)
    (hfresh : ∀ r ∈ c.rows, r.doc_id ≠ newID) :
    (pgvector.FindByDocIDWithEquals none
        (pgvector.InsertDocument none c newID content embedding).1 newID).2
      = ({ ID := newID, Metadata := [("content", Value.str content)] }, none) := by
  have hp : pgvector.parseStatement
      "SELECT doc_id, metadata FROM openai_embeddings WHERE doc_id = $1"
      = some pgvector.Statement.selectByDocID := by decide
  have hfind : ∀ row : pgvector.Row F, row.doc_id = newID →
      (c.rows ++ [row]).find? (fun r => decide (r.doc_id = newID)) = some row := by
    intro row hrow
    rw [List.find?_append]
    have hnone : c.rows.find? (fun r => decide (r.doc_id = newID)) = none := by
      rw [List.find?_eq_none]
      intro r hr
      simpa using hfresh r hr
    simp [hnone, hrow]
  simp [pgvector.FindByDocIDWithEquals, pgvector.InsertDocument, saveEmbeddings_run,
    pgvector.pgQueryRowScan, hp, hfind]

/-- C7: when `InsertDocument` runs its statement it returns the new identifier
and appends the row holding the text, but `FindByDocID` on that identifier then
returns the zero document and the error of the engine for its statement text
`... WHERE doc_id $1`, which has no comparison operator; whatever the
environment answers, `FindByDocID` returns an error. -/
theorem insert_then_find {F : Type} (c : pgvector.Conn F) (newID content : String)
    (embedding : List F) :
    (pgvector.InsertDocument none c newID content embedding).2 = (newID, none)
      ∧ (pgvector.InsertDocument none c newID content embedding).1.rows
        = c.rows ++ [{ doc_id := newID, embedding := embedding,
                       metadata := [("content", Value.str content)] }]
      ∧ (pgvector.FindByDocID none
          (pgvector.InsertDocument none c newID content embedding).1 newID).2
        = ({ ID := "", Metadata := [] },
           some "Failed to scan row: ERROR: syntax error (SQLSTATE 42601)")
      ∧ (∀ fault : GoError, ∃ e,
          (pgvector.FindByDocID fault
            (pgvector.InsertDocument none c newID content embedding).1 newID).2
          = ({ ID := "", Metadata := [] }, some e)) := by
  refine ⟨?_, ?_, ?_, fun fault => findByDocID_never_succeeds fault _ _⟩
  · simp [pgvector.InsertDocument, saveEmbeddings_run]
  · simp [pgvector.InsertDocument, saveEmbeddings_run]
  · simp only [pgvector.FindByDocID, pgvector.pgQueryRowScan, parse_find_text,
      pgvector.sqlParseError]
    rfl

/-- C8: `UpdateDocument` is `DeleteEmbeddings` followed by `SaveEmbeddings`.
If the deletion fails it returns the empty identifier with that error, having
sent the deletion only and left the rows as they were. If both statements run
it returns the identifier, the table holds exactly one row for it, with the new
content and embedding, and the rows of other identifiers are unchanged. But
`FindByDocID` on the identifier then returns an error, not the new text. -/
theorem update_then_find {F : Type} (c : pgvector.Conn F) (docID content : String)
    (embedding : List F) :
    (∀ (e : String) (faultInsert : GoError),
        pgvector.UpdateDocument (some e) faultInsert c docID content embedding
          = ({ rows := c.rows
               issued := c.issued ++ ["DELETE FROM openai_embeddings WHERE doc_id = $1"] },
             ("", some ("Failed to delete document: " ++ e ++ "."))))
      ∧ pgvector.UpdateDocument none none c docID content embedding
        = ((pgvector.SaveEmbeddings none (pgvector.DeleteEmbeddings none c docID).1 docID
              embedding [("content", Value.str content)]).1, (docID, none))
      ∧ (pgvector.UpdateDocument none none c docID content embedding).1.rows
        = c.rows.filter (fun r => r.doc_id ≠ docID)
            ++ [{ doc_id := docID, embedding := embedding,
                  metadata := [("content", Value.str content)] }]
      ∧ (pgvector.UpdateDocument none none c docID content embedding).1.rows.filter
          (fun r => r.doc_id = docID)
        = [{ doc_id := docID, embedding := embedding,
             metadata := [("content", Value.str content)] }]
      ∧ (pgvector.UpdateDocument none none c docID content embedding).1.rows.filter
          (fun r => r.doc_id ≠ docID)
        = c.rows.filter (fun r => r.doc_id ≠ docID)
      ∧ (pgvector.FindByDocID none
          (pgvector.UpdateDocument none none c docID content embedding).1 docID).2
        = ({ ID := "", Metadata := [] },
           some "Failed to scan row: ERROR: syntax error (SQLSTATE 42601)")
      ∧ (∀ fault : GoError, ∃ e,
          (pgvector.FindByDocID fault
            (pgvector.UpdateDocument none none c docID content embedding).1 docID).2
          = ({ ID := "", Metadata := [] }, some e)) := by
  have hrows : (pgvector.UpdateDocument none none c docID content embedding).1.rows
      = c.rows.filter (fun r => r.doc_id ≠ docID)
          ++ [{ doc_id := docID, embedding := embedding,
                metadata := [("content", Value.str content)] }] := by
    simp [pgvector.UpdateDocument, deleteEmbeddings_run, saveEmbeddings_run]
  refine ⟨?_, ?_, hrows, ?_, ?_, ?_, fun fault => findByDocID_never_succeeds fault _ _⟩
  · intro e faultInsert
    simp [pgvector.UpdateDocument, deleteEmbeddings_fault]
  · simp [pgvector.UpdateDocument, deleteEmbeddings_run, saveEmbeddings_run]
  · rw [hrows]
    simp [List.filter_append, List.filter_filter]
  · rw [hrows]
    simp [List.filter_append, List.filter_filter]
  · simp only [pgvector.FindByDocID, pgvector.pgQueryRowScan, parse_find_text,
      pgvector.sqlParseError]
    rfl

end Rago
